import Mathlib

/-!
Shallow embedding of the shannon-gpt preflight gate and execution pipeline
(`src/services/preflight` and `src/ai/claude-executor.ts`), with theorems
settling the specification claims about them.

External effects (filesystem stat calls, the outbound HTTP request, the
config parser, the retryability classifier) are modelled as explicit inputs,
so every function here is a pure, executable translation of the TypeScript
source.
-/

set_option maxHeartbeats 1000000

namespace ShannonGPT

/-- Error categories carried by a typed pipeline error (`PentestError` from
`src/services/error-handling.ts`); the spec taxonomy is config / network /
billing. -/
inductive ErrorCategory
  | config
  | network
  | billing
  deriving DecidableEq, Repr

/-- Machine-readable error codes (`src/types/errors.ts`). -/
inductive ErrorCode
  | REPO_NOT_FOUND
  | CONFIG_VALIDATION_FAILED
  | AUTH_FAILED
  deriving DecidableEq, Repr

/-- The typed error `new PentestError(message, category, retryable, context, code)`.
Context mappings are modelled as association lists. -/
structure PentestError where
  message : String
  category : ErrorCategory
  retryable : Bool
  context : List (String × String)
  code : Option ErrorCode
  deriving DecidableEq, Repr

/-- A thrown JavaScript error: either a typed `PentestError` or a generic
`Error` identified by constructor name and message. -/
inductive JsError
  | pentest (e : PentestError)
  | generic (name : String) (message : String)
  deriving DecidableEq, Repr

/-- `err.message` of a thrown error. -/
def jsErrorMessage : JsError → String
  | .pentest e => e.message
  | .generic _ m => m

/-- `err.constructor.name` of a thrown error. -/
def jsErrorName : JsError → String
  | .pentest _ => "PentestError"
  | .generic n _ => n

/-- JavaScript truthiness of a `string | undefined | null` value:
`undefined`, `null` and the empty string are falsy. -/
def jsTruthyStr : Option String → Bool
  | none => false
  | some s => decide (s ≠ "")

/-- JavaScript `a || b` on an optional string with a string default. -/
def jsOrStr : Option String → String → String
  | none, d => d
  | some s, d => if s = "" then d else s

/-- JavaScript truthiness of a `boolean | undefined` global flag. -/
def jsTruthyBool : Option Bool → Bool
  | none => false
  | some b => b

/-- Outcome of one `fs.stat` call: either stats with an `isDirectory()` answer,
or a thrown filesystem error (missing path, permission, I/O — the code does
not distinguish them). -/
inductive StatOutcome
  | ok (isDirectory : Bool)
  | statError
  deriving DecidableEq, Repr

/-- The filesystem as seen through `fs.stat`. -/
structure FileSystem where
  stat : String → StatOutcome

/-- `validateRepo` from the preflight service: repoPath must stat as a
directory and `{repoPath}/.git` must stat as a directory; any failure yields
a config / non-retryable `REPO_NOT_FOUND` error. -/
def validateRepo (fsys : FileSystem) (repoPath : String) : Except PentestError Unit :=
  match fsys.stat repoPath with
  | .statError =>
      .error ⟨"Repository path does not exist: " ++ repoPath, .config, false,
              [("repoPath", repoPath)], some .REPO_NOT_FOUND⟩
  | .ok isDir =>
      if !isDir then
        .error ⟨"Repository path is not a directory: " ++ repoPath, .config, false,
                [("repoPath", repoPath)], some .REPO_NOT_FOUND⟩
      else
        match fsys.stat (repoPath ++ "/.git") with
        | .statError =>
            .error ⟨"Not a git repository (no .git directory): " ++ repoPath, .config, false,
                    [("repoPath", repoPath)], some .REPO_NOT_FOUND⟩
        | .ok gitIsDir =>
            if !gitIsDir then
              .error ⟨"Not a git repository (no .git directory): " ++ repoPath, .config, false,
                      [("repoPath", repoPath)], some .REPO_NOT_FOUND⟩
            else
              .ok ()

/-- Outcome of one call to the external `parseConfig` (the parser itself is an
external collaborator; this records whether it returned, threw an
already-typed `PentestError`, or threw some other error). -/
inductive ParseOutcome
  | ok
  | throwPentest (e : PentestError)
  | throwOther (name : String) (message : String)
  deriving DecidableEq, Repr

/-- `validateConfig` from the preflight service: delegates to `parseConfig`;
a thrown `PentestError` is passed through unchanged, any other exception is
wrapped as config / non-retryable CONFIG_VALIDATION_FAILED. -/
def validateConfig (parseConfig : String → ParseOutcome) (configPath : String) :
    Except PentestError Unit :=
  match parseConfig configPath with
  | .ok => .ok ()
  | .throwPentest e => .error e
  | .throwOther _ msg =>
      .error ⟨"Configuration validation failed: " ++ msg, .config, false,
              [("configPath", configPath)], some .CONFIG_VALIDATION_FAILED⟩

/-- Outcome of the minimal credential-validation fetch: a 2xx response, a
non-2xx response (status plus body text), or a thrown error (network
failure before any response). -/
inductive FetchOutcome
  | ok
  | httpError (status : Nat) (text : String)
  | thrown (e : JsError)
  deriving DecidableEq, Repr

/-- The error that reaches the catch block of `validateCredentials` for each
fetch outcome: a non-2xx response is rethrown as
`new Error("OpenAI API error (status): body")`; a successful ping raises
nothing. -/
def pingError : FetchOutcome → Option JsError
  | .ok => none
  | .httpError st tx =>
      some (.generic "Error" ("OpenAI API error (" ++ toString st ++ "): " ++ tx))
  | .thrown e => some e

/-- Observable steps of one preflight run, used to state the short-circuit
and zero-network-call properties. -/
inductive PreflightEvent
  | repoCheckRun
  | configCheckRun
  | credCheckRun
  | netCall
  deriving DecidableEq, Repr

/-- `validateCredentials` from the preflight service. Returns the check
outcome together with the network calls it issued. With no API key in the
environment it fails immediately (config, non-retryable, AUTH_FAILED) and
issues no request; otherwise it issues the minimal ping and reclassifies any
resulting error via `isRetryableError`. -/
def validateCredentials (isRetryableError : JsError → Bool) (apiKey : Option String)
    (fetchRes : FetchOutcome) : Except PentestError Unit × List PreflightEvent :=
  if !(jsTruthyStr apiKey) then
    (.error ⟨"No API credentials found. Set OPENAI_API_KEY in .env", .config, false, [],
             some .AUTH_FAILED⟩, [])
  else
    match pingError fetchRes with
    | none => (.ok (), [PreflightEvent.netCall])
    | some e =>
        let message := jsErrorMessage e
        let retryable := isRetryableError e
        (.error ⟨(if retryable then "Failed to reach OpenAI API. Check your network connection."
                  else "OpenAI API key validation failed: " ++ message),
                 (if retryable then .network else .config),
                 retryable,
                 [("authType", "OpenAI API key")],
                 (if retryable then none else some .AUTH_FAILED)⟩,
         [PreflightEvent.netCall])

/-- The external state one preflight run reads: the filesystem, the
environment credential, the external parser's behavior, and the network. -/
structure PreflightWorld where
  fsys : FileSystem
  apiKey : Option String
  parseConfig : String → ParseOutcome
  fetchRes : FetchOutcome

/-- `runPreflightChecks`: repository check, then (if a config path was given)
config check, then credential check, returning on the first failure. The
event list records which checks ran and which network calls were issued. -/
def runPreflightChecks (w : PreflightWorld) (isRetryableError : JsError → Bool)
    (repoPath : String) (configPath : Option String) :
    Except PentestError Unit × List PreflightEvent :=
  match validateRepo w.fsys repoPath with
  | .error e => (.error e, [PreflightEvent.repoCheckRun])
  | .ok _ =>
      let configEvents :=
        if jsTruthyStr configPath then [PreflightEvent.configCheckRun] else []
      let configRes :=
        if jsTruthyStr configPath then validateConfig w.parseConfig (configPath.getD "")
        else .ok ()
      match configRes with
      | .error e => (.error e, PreflightEvent.repoCheckRun :: configEvents)
      | .ok _ =>
          let cred := validateCredentials isRetryableError w.apiKey w.fetchRes
          (cred.1,
           PreflightEvent.repoCheckRun :: configEvents ++ PreflightEvent.credCheckRun :: cred.2)

/-- `choices[i].message` content, with `undefined` and `null` both modelled
as `none`. -/
structure ChatMessage where
  content : Option String
  deriving DecidableEq, Repr

/-- One entry of the completion `choices` array. -/
structure ChatChoice where
  message : Option ChatMessage
  deriving DecidableEq, Repr

/-- The JSON body of a successful chat-completion response, as the executor
reads it: `model`, `choices` (the `usage` field is never consulted). -/
structure ChatCompletion where
  model : Option String
  choices : Option (List ChatChoice)
  deriving DecidableEq, Repr

/-- `completion.choices?.[0]?.message?.content ?? ""` — the optional chain in
`processMessageStream`, defaulting to the empty string when any link is
absent. -/
def extractContent (c : ChatCompletion) : String :=
  ((c.choices.bind List.head?).bind ChatChoice.message).bind ChatMessage.content |>.getD ""

/-- Outcome of the executor's chat-completion fetch. -/
inductive ExecFetch
  | success (completion : ChatCompletion)
  | httpError (status : Nat) (text : String)
  | thrown (e : JsError)
  deriving DecidableEq, Repr

/-- Observable steps of `processMessageStream`: the heartbeat status line,
the outbound request, and the audit append for the turn. -/
inductive StreamEvent
  | heartbeatLine (elapsedSeconds : Int)
  | fetchCall
  | auditResponse (turnIndex : Nat) (text : String)
  deriving DecidableEq, Repr

/-- Whether a stream event is the elapsed-time heartbeat status line. -/
def isHeartbeatLine : StreamEvent → Bool
  | .heartbeatLine _ => true
  | _ => false

/-- The value `processMessageStream` resolves with on success. -/
structure MessageLoopResult where
  turnCount : Nat
  result : String
  apiErrorDetected : Bool
  cost : Nat
  model : String
  deriving DecidableEq, Repr

/-- The inputs one `runClaudePrompt` invocation reads: its arguments, the
process environment, the global loader flag, the two `Date.now()` readings
around the heartbeat check, the timer start and measured duration, and the
network outcome. -/
structure ExecArgs where
  prompt : String
  sourceDir : String
  context : String
  description : String
  apiKey : Option String
  envModel : Option String
  disableLoader : Option Bool
  timerStart : Int
  heartbeatInit : Int
  nowAtCall : Int
  fetchRes : ExecFetch
  duration : Nat
  deriving DecidableEq, Repr

/-- `processMessageStream`: one heartbeat check (loader disabled and more
than 30000 ms between the two clock readings), then the single fetch; a
non-2xx response is rethrown with status and body in the message; on success
turnCount is 1, the content is extracted (empty string when absent), cost is
fixed at 0 and the model falls back to the requested one. -/
def processMessageStream (a : ExecArgs) (optionsModel : String) :
    Except JsError MessageLoopResult × List StreamEvent :=
  let heartbeatEvents :=
    if jsTruthyBool a.disableLoader && decide (30000 < a.nowAtCall - a.heartbeatInit) then
      [StreamEvent.heartbeatLine ((a.nowAtCall - a.timerStart).fdiv 1000)]
    else []
  match a.fetchRes with
  | .thrown e => (.error e, heartbeatEvents ++ [StreamEvent.fetchCall])
  | .httpError st tx =>
      (.error (.generic "Error" ("OpenAI API error (" ++ toString st ++ "): " ++ tx)),
       heartbeatEvents ++ [StreamEvent.fetchCall])
  | .success completion =>
      let result := extractContent completion
      (.ok ⟨1, result, false, 0, jsOrStr completion.model optionsModel⟩,
       heartbeatEvents ++ [StreamEvent.fetchCall, StreamEvent.auditResponse 1 result])

/-- Modelled from the spec: `isSpendingCapBehavior` lives in
`src/utils/billing-detection.ts`, which is not among the provided sources.
Spec section 4.2: "Triggers when turnCount > 0 AND cost == 0 AND resultText
matches the degenerate pattern."  The concrete degenerate placeholder
pattern is not given by the spec, so it is taken as a predicate parameter. -/
def isSpendingCapBehavior (degeneratePattern : String → Bool) (turnCount cost : Nat)
    (resultText : String) : Bool :=
  decide (0 < turnCount) && decide (cost = 0) && degeneratePattern resultText

/-- The record `runClaudePrompt` returns; optional fields are absent
(`none`) on the shape that does not populate them. -/
structure ClaudePromptResult where
  result : Option String
  success : Bool
  duration : Nat
  turns : Option Nat
  cost : Nat
  model : Option String
  partialCost : Option Nat
  apiErrorDetected : Option Bool
  error : Option String
  errorType : Option String
  prompt : Option String
  retryable : Option Bool
  deriving DecidableEq, Repr

/-- `context ? context + "\n\n" + prompt : prompt`. -/
def fullPromptOf (a : ExecArgs) : String :=
  if a.context ≠ "" then a.context ++ "\n\n" ++ a.prompt else a.prompt

/-- The failure record built in the catch block of `runClaudePrompt`:
message, constructor name, truncated prompt, duration, cost so far, and the
retryability verdict of `isRetryableError`. -/
def failureResult (isRetryableError : JsError → Bool) (e : JsError) (fullPrompt : String)
    (duration cost : Nat) : ClaudePromptResult :=
  { error := some (jsErrorMessage e),
    errorType := some (jsErrorName e),
    prompt := some (fullPrompt.take 100 ++ "..."),
    success := false,
    duration := duration,
    cost := cost,
    retryable := some (isRetryableError e),
    result := none,
    turns := none,
    model := none,
    partialCost := none,
    apiErrorDetected := none }

/-- The billing-category, retryable error raised by the spending-cap
safeguard in `runClaudePrompt`. -/
def spendingCapError (turnCount : Nat) (result : String) : PentestError :=
  ⟨"Spending cap likely reached (turns=" ++ toString turnCount ++ ", cost=$0): " ++
     result.take 100,
   .billing, true, [], none⟩

/-- The config-category, non-retryable error thrown by `runClaudePrompt`
when `OPENAI_API_KEY` is absent — thrown before its try block begins. -/
def missingKeyError : PentestError :=
  ⟨"OPENAI_API_KEY is not set. Configure OpenAI credentials before running agents.",
   .config, false, [], none⟩

/-- `runClaudePrompt`: the missing-credential check throws (outside the try
block, so the `Except.error` propagates); everything from the fetch through
the spending-cap safeguard runs inside the try block, whose catch converts
any raised error into a structured failure record. -/
def runClaudePrompt (isRetryableError : JsError → Bool) (degeneratePattern : String → Bool)
    (a : ExecArgs) : Except PentestError ClaudePromptResult :=
  let fullPrompt := fullPromptOf a
  if !(jsTruthyStr a.apiKey) then
    .error missingKeyError
  else
    let optionsModel := jsOrStr a.envModel "gpt-4.1"
    match (processMessageStream a optionsModel).1 with
    | .error e => .ok (failureResult isRetryableError e fullPrompt a.duration 0)
    | .ok mlr =>
        if isSpendingCapBehavior degeneratePattern mlr.turnCount mlr.cost mlr.result then
          .ok (failureResult isRetryableError
                 (.pentest (spendingCapError mlr.turnCount mlr.result))
                 fullPrompt a.duration mlr.cost)
        else
          .ok { result := some mlr.result, success := true, duration := a.duration,
                turns := some mlr.turnCount, cost := mlr.cost, model := some mlr.model,
                partialCost := some mlr.cost, apiErrorDetected := some mlr.apiErrorDetected,
                error := none, errorType := none, prompt := none, retryable := none }

/-- JavaScript falsiness of a `string | undefined | null` value. -/
def jsFalsyStr (s : Option String) : Bool :=
  !(jsTruthyStr s)

/-- `validateAgentOutput`: false on unsuccessful or falsy-result executions;
otherwise looks the agent name up in the validator registry (external
collaborator, taken as a parameter), assuming success when no validator is
registered, and otherwise returning the validator's verdict (false if it
throws). -/
def validateAgentOutput (validators : String → Option (String → Except JsError Bool))
    (result : ClaudePromptResult) (agentName : Option String) (sourceDir : String) : Bool :=
  if !result.success || jsFalsyStr result.result then
    false
  else
    match (if jsTruthyStr agentName then validators (agentName.getD "") else none) with
    | none => true
    | some validator =>
        match validator sourceDir with
        | .ok b => b
        | .error _ => false

end ShannonGPT

namespace ShannonGPT

/-- C4: whenever the repoPath stat throws, the path is not a directory, the
`.git` stat throws, or `.git` is not a directory, `validateRepo` returns a
failure with category config, retryable false and code REPO_NOT_FOUND. -/
theorem validateRepo_failure_classification (fsys : FileSystem) (repoPath : String)
    (h : fsys.stat repoPath = .statError ∨ fsys.stat repoPath = .ok false ∨
         fsys.stat (repoPath ++ "/.git") = .statError ∨
         fsys.stat (repoPath ++ "/.git") = .ok false) :
    ∃ e, validateRepo fsys repoPath = .error e ∧ e.category = .config ∧
      e.retryable = false ∧ e.code = some .REPO_NOT_FOUND := by
  unfold validateRepo
  rcases h1 : fsys.stat repoPath with isDir | _
  · cases isDir
    · exact ⟨_, rfl, rfl, rfl, rfl⟩
    · rcases h2 : fsys.stat (repoPath ++ "/.git") with gitIsDir | _
      · cases gitIsDir
        · exact ⟨_, rfl, rfl, rfl, rfl⟩
        · exfalso
          rcases h with h | h | h | h <;> simp_all
      · exact ⟨_, rfl, rfl, rfl, rfl⟩
  · exact ⟨_, rfl, rfl, rfl, rfl⟩

/-- Witness for C4: a filesystem on which every stat throws. -/
theorem validateRepo_failure_classification_witness :
    ∃ e, validateRepo ⟨fun _ => .statError⟩ "/nope" = .error e ∧ e.category = .config ∧
      e.retryable = false ∧ e.code = some .REPO_NOT_FOUND :=
  validateRepo_failure_classification ⟨fun _ => .statError⟩ "/nope" (Or.inl rfl)

/-- C6: with no `OPENAI_API_KEY` in the environment, the credential check
returns a config / non-retryable AUTH_FAILED failure immediately and issues
no network request. -/
theorem validateCredentials_no_key (isRetryableError : JsError → Bool)
    (apiKey : Option String) (fetchRes : FetchOutcome)
    (h : jsTruthyStr apiKey = false) :
    (validateCredentials isRetryableError apiKey fetchRes).1 =
      .error ⟨"No API credentials found. Set OPENAI_API_KEY in .env", .config, false, [],
              some .AUTH_FAILED⟩ ∧
    PreflightEvent.netCall ∉ (validateCredentials isRetryableError apiKey fetchRes).2 := by
  simp [validateCredentials, h]

/-- Witness for C6: no key in the environment, fetch outcome irrelevant. -/
theorem validateCredentials_no_key_witness :
    (validateCredentials (fun _ => true) none .ok).1 =
      .error ⟨"No API credentials found. Set OPENAI_API_KEY in .env", .config, false, [],
              some .AUTH_FAILED⟩ ∧
    PreflightEvent.netCall ∉ (validateCredentials (fun _ => true) none .ok).2 :=
  validateCredentials_no_key (fun _ => true) none .ok rfl

/-- C5: when the credential ping fails (a thrown fetch error, or a non-2xx
response treated as an exception), the error is reclassified: retryable
errors become the generic network-connection failure (network, retryable,
no code); all others become config / non-retryable AUTH_FAILED. -/
theorem validateCredentials_reclassification (isRetryableError : JsError → Bool)
    (apiKey : Option String) (fetchRes : FetchOutcome) (e : JsError)
    (hk : jsTruthyStr apiKey = true) (he : pingError fetchRes = some e) :
    ∃ pe, (validateCredentials isRetryableError apiKey fetchRes).1 = .error pe ∧
      (isRetryableError e = true →
        pe.message = "Failed to reach OpenAI API. Check your network connection." ∧
        pe.category = .network ∧ pe.retryable = true ∧ pe.code = none) ∧
      (isRetryableError e = false →
        pe.category = .config ∧ pe.retryable = false ∧ pe.code = some .AUTH_FAILED) := by
  refine ⟨⟨(if isRetryableError e then
              "Failed to reach OpenAI API. Check your network connection."
            else "OpenAI API key validation failed: " ++ jsErrorMessage e),
           (if isRetryableError e then .network else .config),
           isRetryableError e,
           [("authType", "OpenAI API key")],
           (if isRetryableError e then none else some .AUTH_FAILED)⟩, ?_, ?_, ?_⟩
  · simp [validateCredentials, hk, he]
  · intro hr
    simp [hr]
  · intro hr
    simp [hr]

/-- Witness for C5: key present, HTTP 429 response, classifier answering
retryable. -/
theorem validateCredentials_reclassification_witness :
    ∃ pe, (validateCredentials (fun _ => true) (some "sk-key")
             (.httpError 429 "rate limited")).1 = .error pe ∧
      ((fun (_ : JsError) => true)
          (.generic "Error" "OpenAI API error (429): rate limited") = true →
        pe.message = "Failed to reach OpenAI API. Check your network connection." ∧
        pe.category = .network ∧ pe.retryable = true ∧ pe.code = none) ∧
      ((fun (_ : JsError) => true)
          (.generic "Error" "OpenAI API error (429): rate limited") = false →
        pe.category = .config ∧ pe.retryable = false ∧ pe.code = some .AUTH_FAILED) :=
  validateCredentials_reclassification (fun _ => true) (some "sk-key")
    (.httpError 429 "rate limited")
    (.generic "Error" "OpenAI API error (429): rate limited") rfl rfl

/-- C7: `validateConfig` passes an already-typed `PentestError` thrown by the
external parser through unchanged, and wraps any other exception as a
config / non-retryable CONFIG_VALIDATION_FAILED failure. -/
theorem validateConfig_wrapping (parseConfig : String → ParseOutcome) (configPath : String) :
    (∀ e, parseConfig configPath = .throwPentest e →
        validateConfig parseConfig configPath = .error e) ∧
    (∀ name msg, parseConfig configPath = .throwOther name msg →
        validateConfig parseConfig configPath =
          .error ⟨"Configuration validation failed: " ++ msg, .config, false,
                  [("configPath", configPath)], some .CONFIG_VALIDATION_FAILED⟩) := by
  constructor
  · intro e he
    simp [validateConfig, he]
  · intro name msg hm
    simp [validateConfig, hm]

/-- Witness for C7: a parser that throws a plain TypeError. -/
theorem validateConfig_wrapping_witness :
    validateConfig (fun _ => .throwOther "TypeError" "bad yaml") "cfg.yaml" =
      .error ⟨"Configuration validation failed: bad yaml", .config, false,
              [("configPath", "cfg.yaml")], some .CONFIG_VALIDATION_FAILED⟩ :=
  (validateConfig_wrapping (fun _ => .throwOther "TypeError" "bad yaml") "cfg.yaml").2
    "TypeError" "bad yaml" rfl

/-- C3: the preflight gate returns the first failing check's failure and runs
no later check: a repository failure prevents the config check, the
credential check and any network call; a config failure prevents the
credential check and any network call. -/
theorem runPreflightChecks_short_circuit (w : PreflightWorld)
    (isRetryableError : JsError → Bool) (repoPath : String) (configPath : Option String) :
    (∀ e, validateRepo w.fsys repoPath = .error e →
        (runPreflightChecks w isRetryableError repoPath configPath).1 = .error e ∧
        PreflightEvent.configCheckRun ∉
          (runPreflightChecks w isRetryableError repoPath configPath).2 ∧
        PreflightEvent.credCheckRun ∉
          (runPreflightChecks w isRetryableError repoPath configPath).2 ∧
        PreflightEvent.netCall ∉
          (runPreflightChecks w isRetryableError repoPath configPath).2) ∧
    (validateRepo w.fsys repoPath = .ok () →
      ∀ cp e, configPath = some cp → jsTruthyStr configPath = true →
        validateConfig w.parseConfig cp = .error e →
        (runPreflightChecks w isRetryableError repoPath configPath).1 = .error e ∧
        PreflightEvent.credCheckRun ∉
          (runPreflightChecks w isRetryableError repoPath configPath).2 ∧
        PreflightEvent.netCall ∉
          (runPreflightChecks w isRetryableError repoPath configPath).2) := by
  constructor
  · intro e he
    simp [runPreflightChecks, he]
  · intro hr cp e hcp ht hc
    subst hcp
    simp [runPreflightChecks, hr, ht, hc]

/-- Witness for C3: a world whose repository stat throws, so the gate stops
at the repository check. -/
theorem runPreflightChecks_short_circuit_witness :
    (runPreflightChecks ⟨⟨fun _ => .statError⟩, some "sk-key", fun _ => .ok, .ok⟩
        (fun _ => true) "/nope" (some "cfg.yaml")).1 =
      .error ⟨"Repository path does not exist: /nope", .config, false,
              [("repoPath", "/nope")], some .REPO_NOT_FOUND⟩ ∧
    PreflightEvent.configCheckRun ∉
      (runPreflightChecks ⟨⟨fun _ => .statError⟩, some "sk-key", fun _ => .ok, .ok⟩
        (fun _ => true) "/nope" (some "cfg.yaml")).2 ∧
    PreflightEvent.credCheckRun ∉
      (runPreflightChecks ⟨⟨fun _ => .statError⟩, some "sk-key", fun _ => .ok, .ok⟩
        (fun _ => true) "/nope" (some "cfg.yaml")).2 ∧
    PreflightEvent.netCall ∉
      (runPreflightChecks ⟨⟨fun _ => .statError⟩, some "sk-key", fun _ => .ok, .ok⟩
        (fun _ => true) "/nope" (some "cfg.yaml")).2 :=
  (runPreflightChecks_short_circuit ⟨⟨fun _ => .statError⟩, some "sk-key", fun _ => .ok, .ok⟩
      (fun _ => true) "/nope" (some "cfg.yaml")).1
    ⟨"Repository path does not exist: /nope", .config, false,
     [("repoPath", "/nope")], some .REPO_NOT_FOUND⟩ rfl

/-- A concrete invocation with no `OPENAI_API_KEY` in the environment. -/
def noKeyArgs : ExecArgs :=
  { prompt := "scan the repo", sourceDir := "/tmp/repo", context := "",
    description := "Claude analysis", apiKey := none, envModel := none,
    disableLoader := none, timerStart := 0, heartbeatInit := 0, nowAtCall := 0,
    fetchRes := .thrown (.generic "Error" "network down"), duration := 5 }

/-- C1 counterexample: on an invocation with no `OPENAI_API_KEY`, the
missing-credential failure is propagated to the caller as a thrown
`PentestError` (`Except.error`) — the check sits before the try block — not
converted into a structured success=false result, refuting the claim that
every failure of the invocation is caught at the outermost boundary. -/
theorem runClaudePrompt_missing_key_propagates :
    runClaudePrompt (fun _ => false) (fun _ => false) noKeyArgs =
      .error missingKeyError := by
  rfl

/-- C1 amended: failures raised inside the try block (the remote call and the
spending-cap safeguard) are caught at the single outermost boundary and
converted into a structured success=false failure record, and with a
credential present no exception escapes the invocation; the
missing-credential failure, checked before that boundary, is instead thrown
to the caller as a config-category non-retryable error. -/
theorem runClaudePrompt_boundary_amended (isRetryableError : JsError → Bool)
    (degeneratePattern : String → Bool) (a : ExecArgs) :
    (jsTruthyStr a.apiKey = false →
        runClaudePrompt isRetryableError degeneratePattern a = .error missingKeyError) ∧
    (jsTruthyStr a.apiKey = true →
        ∃ r, runClaudePrompt isRetryableError degeneratePattern a = .ok r) ∧
    (jsTruthyStr a.apiKey = true →
      ∀ e, (processMessageStream a (jsOrStr a.envModel "gpt-4.1")).1 = .error e →
        runClaudePrompt isRetryableError degeneratePattern a =
          .ok (failureResult isRetryableError e (fullPromptOf a) a.duration 0) ∧
        (failureResult isRetryableError e (fullPromptOf a) a.duration 0).success = false) := by
  refine ⟨?_, ?_, ?_⟩
  · intro h
    simp [runClaudePrompt, h]
  · intro h
    unfold runClaudePrompt
    simp only [h, Bool.not_true, Bool.false_eq_true, if_false]
    rcases hm : (processMessageStream a (jsOrStr a.envModel "gpt-4.1")).1 with e | mlr
    · exact ⟨failureResult isRetryableError e (fullPromptOf a) a.duration 0, rfl⟩
    · by_cases hs : isSpendingCapBehavior degeneratePattern mlr.turnCount mlr.cost mlr.result
        = true
      · exact ⟨failureResult isRetryableError
                 (.pentest (spendingCapError mlr.turnCount mlr.result))
                 (fullPromptOf a) a.duration mlr.cost, by simp [hs]⟩
      · exact ⟨{ result := some mlr.result, success := true, duration := a.duration,
                 turns := some mlr.turnCount, cost := mlr.cost, model := some mlr.model,
                 partialCost := some mlr.cost, apiErrorDetected := some mlr.apiErrorDetected,
                 error := none, errorType := none, prompt := none, retryable := none },
               by simp [hs]⟩
  · intro h e he
    exact ⟨by simp [runClaudePrompt, h, he], rfl⟩

/-- A concrete invocation with a credential present whose fetch throws. -/
def keyedFailArgs : ExecArgs :=
  { prompt := "scan", sourceDir := "/tmp/repo", context := "ctx",
    description := "Claude analysis", apiKey := some "sk-key", envModel := none,
    disableLoader := none, timerStart := 0, heartbeatInit := 0, nowAtCall := 0,
    fetchRes := .thrown (.generic "Error" "socket hang up"), duration := 7 }

/-- Witness for the amended C1: a thrown network error is converted into a
structured failure record. -/
theorem runClaudePrompt_boundary_amended_witness :
    runClaudePrompt (fun _ => true) (fun _ => false) keyedFailArgs =
      .ok (failureResult (fun _ => true) (.generic "Error" "socket hang up")
            (fullPromptOf keyedFailArgs) 7 0) ∧
    (failureResult (fun _ => true) (.generic "Error" "socket hang up")
      (fullPromptOf keyedFailArgs) 7 0).success = false :=
  (runClaudePrompt_boundary_amended (fun _ => true) (fun _ => false) keyedFailArgs).2.2
    rfl (.generic "Error" "socket hang up") rfl

/-- C2: `isSpendingCapBehavior` holds exactly when turnCount > 0, cost = 0
and the result text matches the degenerate pattern (so never when cost > 0);
and when it holds on the values of an HTTP-success completion,
`runClaudePrompt` raises a billing-category retryable error and returns a
failure record instead of a success. -/
theorem isSpendingCapBehavior_contract (degeneratePattern : String → Bool)
    (isRetryableError : JsError → Bool) (turnCount cost : Nat) (resultText : String)
    (a : ExecArgs) :
    (isSpendingCapBehavior degeneratePattern turnCount cost resultText = true ↔
      (0 < turnCount ∧ cost = 0 ∧ degeneratePattern resultText = true)) ∧
    (0 < cost → isSpendingCapBehavior degeneratePattern turnCount cost resultText = false) ∧
    (∀ completion, a.fetchRes = .success completion → jsTruthyStr a.apiKey = true →
      isSpendingCapBehavior degeneratePattern 1 0 (extractContent completion) = true →
      runClaudePrompt isRetryableError degeneratePattern a =
        .ok (failureResult isRetryableError
              (.pentest (spendingCapError 1 (extractContent completion)))
              (fullPromptOf a) a.duration 0) ∧
      (spendingCapError 1 (extractContent completion)).category = .billing ∧
      (spendingCapError 1 (extractContent completion)).retryable = true ∧
      (failureResult isRetryableError
        (.pentest (spendingCapError 1 (extractContent completion)))
        (fullPromptOf a) a.duration 0).success = false) := by
  refine ⟨?_, ?_, ?_⟩
  · simp [isSpendingCapBehavior, and_assoc]
  · intro hc
    simp [isSpendingCapBehavior, Nat.pos_iff_ne_zero.mp hc]
  · intro completion hcomp hk hcap
    refine ⟨?_, rfl, rfl, rfl⟩
    simp [runClaudePrompt, hk, processMessageStream, hcomp, hcap]

/-- A concrete invocation whose completion succeeds over HTTP but carries an
empty choices array (so the extracted text is the empty string). -/
def capArgs : ExecArgs :=
  { prompt := "scan", sourceDir := "/tmp/repo", context := "",
    description := "Claude analysis", apiKey := some "sk-key", envModel := none,
    disableLoader := none, timerStart := 0, heartbeatInit := 0, nowAtCall := 0,
    fetchRes := .success ⟨some "gpt-4.1", some []⟩, duration := 3 }

/-- Witness for C2: with the degenerate pattern matching the empty string,
the HTTP-success completion is turned into a failure record built from the
billing-category retryable spending-cap error. -/
theorem isSpendingCapBehavior_contract_witness :
    runClaudePrompt (fun _ => true) (fun s => decide (s = "")) capArgs =
      .ok (failureResult (fun _ => true)
            (.pentest (spendingCapError 1 (extractContent ⟨some "gpt-4.1", some []⟩)))
            (fullPromptOf capArgs) capArgs.duration 0) :=
  ((isSpendingCapBehavior_contract (fun s => decide (s = "")) (fun _ => true) 1 0 "" capArgs).2.2
    ⟨some "gpt-4.1", some []⟩ rfl rfl rfl).1

/-- C8: every successful result of `runClaudePrompt` has turnCount exactly 1,
cost fixed at 0, and result text equal to the completion's
`choices[0].message.content`, or the empty string when that field is
absent. -/
theorem runClaudePrompt_success_shape (isRetryableError : JsError → Bool)
    (degeneratePattern : String → Bool) (a : ExecArgs) (r : ClaudePromptResult)
    (h : runClaudePrompt isRetryableError degeneratePattern a = .ok r)
    (hs : r.success = true) :
    r.turns = some 1 ∧ r.cost = 0 ∧
    (∀ completion, a.fetchRes = .success completion →
      r.result = some (extractContent completion)) ∧
    (∀ completion, a.fetchRes = .success completion →
      ((completion.choices.bind List.head?).bind ChatChoice.message).bind ChatMessage.content
        = none →
      r.result = some "") := by
  by_cases hk : jsTruthyStr a.apiKey = true
  · rcases hf : a.fetchRes with completion | ⟨st, tx⟩ | e
    · by_cases hcap :
          isSpendingCapBehavior degeneratePattern 1 0 (extractContent completion) = true
      · simp [runClaudePrompt, hk, processMessageStream, hf, hcap] at h
        rw [← h] at hs
        simp [failureResult] at hs
      · simp [runClaudePrompt, hk, processMessageStream, hf, hcap] at h
        refine ⟨?_, ?_, ?_, ?_⟩
        · rw [← h]
        · rw [← h]
        · intro c hc
          cases hc
          rw [← h]
        · intro c hc hnone
          cases hc
          rw [← h]
          simp [extractContent, hnone]
    · simp [runClaudePrompt, hk, processMessageStream, hf] at h
      rw [← h] at hs
      simp [failureResult] at hs
    · simp [runClaudePrompt, hk, processMessageStream, hf] at h
      rw [← h] at hs
      simp [failureResult] at hs
  · simp only [Bool.not_eq_true] at hk
    simp [runClaudePrompt, hk] at h

/-- A concrete invocation whose completion succeeds with a pong message. -/
def pongArgs : ExecArgs :=
  { prompt := "ping", sourceDir := "/tmp/repo", context := "",
    description := "Claude analysis", apiKey := some "sk-key", envModel := none,
    disableLoader := none, timerStart := 0, heartbeatInit := 0, nowAtCall := 0,
    fetchRes := .success ⟨some "gpt-4.1", some [⟨some ⟨some "pong"⟩⟩]⟩, duration := 2 }

/-- Witness for C8: the successful pong completion yields turnCount 1, cost 0
and result text "pong". -/
theorem runClaudePrompt_success_shape_witness :
    (runClaudePrompt (fun _ => false) (fun _ => false) pongArgs =
        .ok { result := some "pong", success := true, duration := 2, turns := some 1,
              cost := 0, model := some "gpt-4.1", partialCost := some 0,
              apiErrorDetected := some false, error := none, errorType := none,
              prompt := none, retryable := none }) ∧
    ({ result := some "pong", success := true, duration := 2, turns := some 1,
       cost := 0, model := some "gpt-4.1", partialCost := some 0,
       apiErrorDetected := some false, error := none, errorType := none,
       prompt := none, retryable := none } : ClaudePromptResult).turns = some 1 ∧
    ({ result := some "pong", success := true, duration := 2, turns := some 1,
       cost := 0, model := some "gpt-4.1", partialCost := some 0,
       apiErrorDetected := some false, error := none, errorType := none,
       prompt := none, retryable := none } : ClaudePromptResult).cost = 0 :=
  ⟨rfl,
   (runClaudePrompt_success_shape (fun _ => false) (fun _ => false) pongArgs _ rfl rfl).1,
   (runClaudePrompt_success_shape (fun _ => false) (fun _ => false) pongArgs _ rfl rfl).2.1⟩

/-- Trace shape of one `processMessageStream` call: the (conditional)
heartbeat line sits before the fetch, and nothing after the fetch is a
heartbeat line. -/
theorem processMessageStream_trace_shape (a : ExecArgs) (optionsModel : String) :
    ∃ rest, (processMessageStream a optionsModel).2 =
      (if jsTruthyBool a.disableLoader && decide (30000 < a.nowAtCall - a.heartbeatInit) then
        [StreamEvent.heartbeatLine ((a.nowAtCall - a.timerStart).fdiv 1000)]
      else []) ++ StreamEvent.fetchCall :: rest ∧
      rest.any isHeartbeatLine = false := by
  rcases hf : a.fetchRes with completion | ⟨st, tx⟩ | e
  · exact ⟨[StreamEvent.auditResponse 1 (extractContent completion)],
      by simp [processMessageStream, hf], rfl⟩
  · exact ⟨[], by simp [processMessageStream, hf], rfl⟩
  · exact ⟨[], by simp [processMessageStream, hf], rfl⟩

/-- C9: in degraded-output mode the stream emits the elapsed-time status line
exactly when more than 30000 ms separate the two clock readings; the check
happens once per call (at most one heartbeat line), strictly before the
remote request is issued, and never after it. -/
theorem processMessageStream_heartbeat (a : ExecArgs) (optionsModel : String) :
    ((processMessageStream a optionsModel).2.any isHeartbeatLine = true ↔
      (jsTruthyBool a.disableLoader = true ∧ 30000 < a.nowAtCall - a.heartbeatInit)) ∧
    (∃ rest, (processMessageStream a optionsModel).2 =
      (if jsTruthyBool a.disableLoader && decide (30000 < a.nowAtCall - a.heartbeatInit) then
        [StreamEvent.heartbeatLine ((a.nowAtCall - a.timerStart).fdiv 1000)]
      else []) ++ StreamEvent.fetchCall :: rest ∧
      rest.any isHeartbeatLine = false) ∧
    (processMessageStream a optionsModel).2.countP isHeartbeatLine ≤ 1 := by
  obtain ⟨rest, htr, hrest⟩ := processMessageStream_trace_shape a optionsModel
  refine ⟨?_, ⟨rest, htr, hrest⟩, ?_⟩
  · rw [htr]
    cases hbv : (jsTruthyBool a.disableLoader &&
        decide (30000 < a.nowAtCall - a.heartbeatInit))
    · simp only [hbv, Bool.false_eq_true, if_false, List.nil_append]
      simp [isHeartbeatLine, hrest]
      intro ha
      rw [ha] at hbv
      simp at hbv
      omega
    · simp only [hbv, if_true, List.cons_append, List.nil_append]
      simp [isHeartbeatLine]
      simpa using hbv
  · have hzero : List.countP isHeartbeatLine rest = 0 := by
      rw [List.countP_eq_zero]
      intro x hx
      exact List.any_eq_false.mp hrest x hx
    rw [htr]
    cases hbv : (jsTruthyBool a.disableLoader &&
        decide (30000 < a.nowAtCall - a.heartbeatInit)) <;>
      simp [List.countP_append, List.countP_cons, List.countP_nil, isHeartbeatLine, hzero]

/-- A concrete invocation in degraded-output mode whose second clock reading
is 40000 ms after the first. -/
def heartbeatArgs : ExecArgs :=
  { prompt := "scan", sourceDir := "/tmp/repo", context := "",
    description := "Claude analysis", apiKey := some "sk-key", envModel := none,
    disableLoader := some true, timerStart := 0, heartbeatInit := 0, nowAtCall := 40000,
    fetchRes := .success ⟨none, none⟩, duration := 41 }

/-- Witness for C9: with the loader disabled and 40000 ms elapsed, the
heartbeat status line is emitted. -/
theorem processMessageStream_heartbeat_witness :
    (processMessageStream heartbeatArgs "gpt-4.1").2.any isHeartbeatLine = true :=
  (processMessageStream_heartbeat heartbeatArgs "gpt-4.1").1.mpr ⟨rfl, by decide⟩

/-- C10: a successful result with a falsy (empty / null / absent) result text
fails validation exactly like an unsuccessful execution, regardless of agent
name; a successful result with non-empty text whose agent has no registered
validator passes. -/
theorem validateAgentOutput_contract
    (validators : String → Option (String → Except JsError Bool))
    (r : ClaudePromptResult) (agentName : Option String) (sourceDir : String) :
    (jsFalsyStr r.result = true →
      validateAgentOutput validators r agentName sourceDir = false) ∧
    (r.success = false → validateAgentOutput validators r agentName sourceDir = false) ∧
    (∀ s, r.success = true → r.result = some s → s ≠ "" →
      (if jsTruthyStr agentName then validators (agentName.getD "") else none) = none →
      validateAgentOutput validators r agentName sourceDir = true) := by
  refine ⟨?_, ?_, ?_⟩
  · intro h
    simp [validateAgentOutput, h]
  · intro h
    simp [validateAgentOutput, h]
  · intro s hsucc hres hne hlook
    unfold validateAgentOutput
    rw [hlook]
    simp [hsucc, hres, jsFalsyStr, jsTruthyStr, hne]

/-- A successful result whose text is the empty string. -/
def emptyOkResult : ClaudePromptResult :=
  { result := some "", success := true, duration := 1, turns := some 1, cost := 0,
    model := none, partialCost := none, apiErrorDetected := none, error := none,
    errorType := none, prompt := none, retryable := none }

/-- A successful result with non-empty text. -/
def fullOkResult : ClaudePromptResult :=
  { result := some "report written", success := true, duration := 1, turns := some 1,
    cost := 0, model := none, partialCost := none, apiErrorDetected := none,
    error := none, errorType := none, prompt := none, retryable := none }

/-- Witness for C10: the empty successful result fails validation; the
non-empty one with an unregistered agent passes. -/
theorem validateAgentOutput_contract_witness :
    validateAgentOutput (fun _ => none) emptyOkResult (some "recon") "/tmp/repo" = false ∧
    validateAgentOutput (fun _ => none) fullOkResult (some "recon") "/tmp/repo" = true :=
  ⟨(validateAgentOutput_contract (fun _ => none) emptyOkResult (some "recon") "/tmp/repo").1
      rfl,
   (validateAgentOutput_contract (fun _ => none) fullOkResult (some "recon") "/tmp/repo").2.2
      "report written" rfl rfl (by decide) rfl⟩

end ShannonGPT
